import Mathlib

/-!
Shallow embedding of `examples/websocket_client.py` (class `WandererKillsClient`):
the client-side channel-session state machine — connect/join, optimistic
subscribe/unsubscribe tracking, status snapshot, best-effort disconnect, and the
inbound-frame receive loop — together with theorems settling the specification
claims about it.

Modelling conventions:
* JSON values produced by `json.loads` are the inductive `Json`; `dict.get` is
  `lookupJ`, Python truthiness is `truthy`, `len` is `pyLen` (`none` = TypeError).
* The client object is `ClientState`; the websocket field is `Option Bool`
  (`none` = no transport object, `some b` = transport with `b` = still open).
* Each method returns an `OpResult`: the new state, the list of frames actually
  written to the transport during the call, and an `Except` for raise/return.
* The transport and the peer are the environment: `connect` takes as extra
  inputs whether `websockets.connect` succeeded and the outcome of the first
  `recv` (closed / undecodable text / parsed JSON); the receive loop takes the
  list of `recv` outcomes observed so far.
-/

namespace WandererKills

/-- JSON value as produced by `json.loads` (numbers restricted to integers,
which is all the protocol uses). -/
inductive Json where
  | null
  | bool (b : Bool)
  | num (n : Int)
  | str (s : String)
  | arr (xs : List Json)
  | obj (fields : List (String × Json))

/-- Python `d.get(key)` on a JSON object's field list. -/
def lookupJ : List (String × Json) → String → Option Json
  | [], _ => none
  | (k, v) :: rest, key => if k = key then some v else lookupJ rest key

/-- Python `x == "s"` where `x` is an arbitrary JSON value or missing:
true exactly when `x` is that string. -/
def isStrEq : Option Json → String → Bool
  | some (Json.str t), s => t = s
  | _, _ => false

/-- Python truthiness of a JSON value. -/
def truthy : Json → Bool
  | .null => false
  | .bool b => b
  | .num n => n != 0
  | .str s => s != ""
  | .arr xs => !xs.isEmpty
  | .obj fs => !fs.isEmpty

/-- Python `len` on a JSON value; `none` models a raised TypeError. -/
def pyLen : Json → Option Nat
  | .arr xs => some xs.length
  | .str s => some s.length
  | .obj fs => some fs.length
  | _ => none

/-- Payload of an outbound command frame: `{}` or `{"systems": ids}`. -/
inductive OutPayload where
  | empty
  | systems (ids : List Int)
  deriving DecidableEq

/-- An outbound command frame `{topic, event, payload, ref}` as serialized by
`json.dumps` in the client. -/
structure Frame where
  topic : String
  event : String
  payload : OutPayload
  ref : Nat
  deriving DecidableEq

/-- The mutable fields of a `WandererKillsClient` object. -/
structure ClientState where
  server_url : String
  websocket : Option Bool
  subscriptions : Finset Int
  subscription_id : Option Json
  running : Bool

/-- `WandererKillsClient.__init__`. -/
def mkClient (server_url : String) : ClientState :=
  { server_url := (server_url.replace "http://" "ws://").replace "https://" "wss://"
    websocket := none
    subscriptions := ∅
    subscription_id := none
    running := false }

/-- Exceptions raised by the command methods. -/
inductive ClientError where
  | notConnected
  | connectionClosed
  deriving DecidableEq

/-- Exceptions propagating out of `connect`. -/
inductive ConnectError where
  | transportConnectError
  | recvError
  | decodeError
  | typeErrorDuringJoin
  | joinFailed (raw : Json)

/-- Result of one method call: new object state, frames written to the
transport during the call, and the returned value or raised exception. -/
structure OpResult (ε α : Type) where
  state : ClientState
  sent : List Frame
  result : Except ε α

/-- Return value `{"subscribed_systems": list(self.subscriptions)}` (the list
order of a Python set is unspecified, so the set is the honest value). -/
structure SubResult where
  subscribed_systems : Finset Int
  deriving DecidableEq

/-- Return value of `get_status`. -/
structure StatusResult where
  subscription_id : Option Json
  subscribed_systems : Finset Int
  connected : Bool

/-- The join frame sent by `connect` (ref hardcoded to 1). -/
def joinMessage : Frame := ⟨"killmails:lobby", "phx_join", .empty, 1⟩

/-- The subscribe frame (ref hardcoded to 2). -/
def subscribeMessage (ids : List Int) : Frame :=
  ⟨"killmails:lobby", "subscribe_systems", .systems ids, 2⟩

/-- The unsubscribe frame (ref hardcoded to 3). -/
def unsubscribeMessage (ids : List Int) : Frame :=
  ⟨"killmails:lobby", "unsubscribe_systems", .systems ids, 3⟩

/-- The status frame (ref hardcoded to 4). -/
def statusMessage : Frame := ⟨"killmails:lobby", "get_status", .empty, 4⟩

/-- The leave frame sent by `disconnect` (ref hardcoded to 5). -/
def leaveMessage : Frame := ⟨"killmails:lobby", "phx_leave", .empty, 5⟩

/-- Outcome of the first `recv` inside `connect`: `none` = the transport closed
or errored before a reply, `some none` = text that `json.loads` rejects,
`some (some j)` = a frame parsed to `j`. -/
abbrev FirstRecv := Option (Option Json)

/-- `WandererKillsClient.connect`. `connOk` says whether `websockets.connect`
succeeded. Note the source sets `self.running = True` immediately after the
transport opens, before the join reply is examined. -/
def connect (st : ClientState) (connOk : Bool) (firstRecv : FirstRecv) :
    OpResult ConnectError Json :=
  if !connOk then ⟨st, [], .error .transportConnectError⟩
  else
    let st1 : ClientState := { st with websocket := some true, running := true }
    match firstRecv with
    | none => ⟨st1, [joinMessage], .error .recvError⟩
    | some none => ⟨st1, [joinMessage], .error .decodeError⟩
    | some (some rd) =>
      match rd with
      | .obj fs =>
        if isStrEq (lookupJ fs "event") "phx_reply" then
          match (lookupJ fs "payload").getD (.obj []) with
          | .obj ps =>
            if isStrEq (lookupJ ps "status") "ok" then
              match lookupJ ps "response" with
              | some (Json.obj rs) =>
                ⟨{ st1 with subscription_id := lookupJ rs "subscription_id" },
                  [joinMessage], .ok (.obj rs)⟩
              | some _ => ⟨st1, [joinMessage], .error .typeErrorDuringJoin⟩
              | none => ⟨st1, [joinMessage], .error .typeErrorDuringJoin⟩
            else ⟨st1, [joinMessage], .error (.joinFailed rd)⟩
          | _ => ⟨st1, [joinMessage], .error .typeErrorDuringJoin⟩
        else ⟨st1, [joinMessage], .error (.joinFailed rd)⟩
      | _ => ⟨st1, [joinMessage], .error .typeErrorDuringJoin⟩

/-- `WandererKillsClient.subscribe_to_systems`. The guard mirrors
`if not self.websocket or not self.running`; a send on a closed-but-present
websocket raises before any state is touched. -/
def subscribe_to_systems (st : ClientState) (system_ids : List Int) :
    OpResult ClientError SubResult :=
  if st.websocket.isNone || !st.running then ⟨st, [], .error .notConnected⟩
  else
    match st.websocket with
    | some true =>
      let subs := st.subscriptions ∪ system_ids.toFinset
      ⟨{ st with subscriptions := subs }, [subscribeMessage system_ids], .ok ⟨subs⟩⟩
    | _ => ⟨st, [], .error .connectionClosed⟩

/-- `WandererKillsClient.unsubscribe_from_systems`. -/
def unsubscribe_from_systems (st : ClientState) (system_ids : List Int) :
    OpResult ClientError SubResult :=
  if st.websocket.isNone || !st.running then ⟨st, [], .error .notConnected⟩
  else
    match st.websocket with
    | some true =>
      let subs := st.subscriptions \ system_ids.toFinset
      ⟨{ st with subscriptions := subs }, [unsubscribeMessage system_ids], .ok ⟨subs⟩⟩
    | _ => ⟨st, [], .error .connectionClosed⟩

/-- `WandererKillsClient.get_status`. -/
def get_status (st : ClientState) : OpResult ClientError StatusResult :=
  if st.websocket.isNone || !st.running then ⟨st, [], .error .notConnected⟩
  else
    match st.websocket with
    | some true =>
      ⟨st, [statusMessage], .ok ⟨st.subscription_id, st.subscriptions, st.running⟩⟩
    | _ => ⟨st, [], .error .connectionClosed⟩

/-- `WandererKillsClient.disconnect`: set `running = False`; if a websocket
object exists, try to send the leave frame and close, swallowing all errors
(a send on an already-closed transport raises and writes nothing). -/
def disconnect (st : ClientState) : ClientState × List Frame :=
  let st1 : ClientState := { st with running := false }
  match st.websocket with
  | none => (st1, [])
  | some true => ({ st1 with websocket := some false }, [leaveMessage])
  | some false => (st1, [])

/-- An event delivered to the consumer (here: the structured log lines the
handler emits for a frame). -/
inductive Delivered where
  | killmailUpdate (system_id : Option Json) (count : Nat) (timestamp : Option Json)
  | killCountUpdate (system_id : Option Json) (count : Option Json)
  | commandOk (r : Option Json) (response : Json)
  | commandFailed (r : Option Json) (response : Json)

/-- Body of the per-killmail loop in the `killmail_update` branch; `none`
models an exception (a `.get` on a non-dict, or `len` on a non-sized value). -/
def handleKillmailRecord (killmail : Json) : Option Unit :=
  match killmail with
  | .obj ks =>
    let victim := (lookupJ ks "victim").getD (.obj [])
    let attackers := (lookupJ ks "attackers").getD (.arr [])
    let vstep : Option Unit :=
      if truthy victim then
        match victim with
        | .obj _ => some ()
        | _ => none
      else some ()
    let astep : Option Unit :=
      if truthy attackers then (pyLen attackers).map fun _ => ()
      else some ()
    vstep.bind fun _ => astep
  | _ => none

/-- The `killmail_update` branch of `_handle_message`; `none` models an
exception escaping the handler (caught by the receive loop). Iterating a
non-empty string or dict raises on the first element's `.get`. -/
def handleKillmailUpdate (payload : Json) : Option (List Delivered) :=
  match payload with
  | .obj ps =>
    let system_id := lookupJ ps "system_id"
    let timestamp := lookupJ ps "timestamp"
    let killmails := (lookupJ ps "killmails").getD (.arr [])
    match pyLen killmails with
    | none => none
    | some n =>
      match killmails with
      | .arr kms =>
        match kms.mapM handleKillmailRecord with
        | some _ => some [.killmailUpdate system_id n timestamp]
        | none => none
      | .str s => if s.length = 0 then some [.killmailUpdate system_id n timestamp] else none
      | .obj fs => if fs.length = 0 then some [.killmailUpdate system_id n timestamp] else none
      | _ => none
  | _ => none

/-- `WandererKillsClient._handle_message`: classify one parsed inbound frame
and emit the consumer-visible events; the object state is returned alongside
(the source method only reads `message` and logs). `none` in the second
component models an exception escaping the handler. -/
def _handle_message (st : ClientState) (message : Json) :
    ClientState × Option (List Delivered) :=
  match message with
  | .obj fs =>
    let event := lookupJ fs "event"
    let payload := (lookupJ fs "payload").getD (.obj [])
    if isStrEq event "killmail_update" then
      (st, handleKillmailUpdate payload)
    else if isStrEq event "kill_count_update" then
      match payload with
      | .obj ps => (st, some [.killCountUpdate (lookupJ ps "system_id") (lookupJ ps "count")])
      | _ => (st, none)
    else if isStrEq event "phx_reply" then
      match payload with
      | .obj ps =>
        let r := lookupJ fs "ref"
        let response := (lookupJ ps "response").getD (.obj [])
        if isStrEq (lookupJ ps "status") "ok" then (st, some [.commandOk r response])
        else (st, some [.commandFailed r response])
      | _ => (st, none)
    else (st, some [])
  | _ => (st, none)

/-- One `recv` outcome inside the receive loop: the connection closed, or a
text frame whose `json.loads` result is `none` (JSONDecodeError) or a value. -/
inductive RecvItem where
  | closed
  | frame (parsed : Option Json)

/-- `WandererKillsClient._listen_for_messages` over the finite list of `recv`
outcomes observed so far: check `self.running and self.websocket` before each
`recv`; `ConnectionClosed` breaks (and the `finally` clears `running`); a
decode error or handler exception is logged and the loop continues. An
exhausted list means the loop is still blocked in `recv`, so no `finally`
runs. Returns the state and the concatenated consumer-visible events. -/
def _listen_for_messages : ClientState → List RecvItem → ClientState × List Delivered
  | st, [] => (st, [])
  | st, item :: rest =>
    if st.running && st.websocket.isSome then
      match item with
      | .closed => ({ st with running := false }, [])
      | .frame none => _listen_for_messages st rest
      | .frame (some j) =>
        let r := _handle_message st j
        let k := _listen_for_messages r.1 rest
        (k.1, r.2.getD [] ++ k.2)
    else
      ({ st with running := false }, [])

/-- One consumer-issued subscription command. -/
inductive SubCmd where
  | sub (ids : List Int)
  | unsub (ids : List Int)

/-- Spec-side fold step: set union for subscribe, set difference for
unsubscribe. -/
def applySpec (s : Finset Int) : SubCmd → Finset Int
  | .sub ids => s ∪ ids.toFinset
  | .unsub ids => s \ ids.toFinset

/-- Run a sequence of subscribe/unsubscribe calls, threading the client
state (return values and sent frames dropped). -/
def runCmds : ClientState → List SubCmd → ClientState
  | st, [] => st
  | st, SubCmd.sub ids :: cs => runCmds (subscribe_to_systems st ids).state cs
  | st, SubCmd.unsub ids :: cs => runCmds (unsubscribe_from_systems st ids).state cs

/-- A reply for which the join check in `connect` evaluates cleanly to False
(no attribute error): a dict whose event is not the string phx_reply, or
whose event is phx_reply, whose payload defaults to a dict, and whose status
is not the string ok. -/
def replyNotOkClean (rd : Json) : Bool :=
  match rd with
  | .obj fs =>
    if isStrEq (lookupJ fs "event") "phx_reply" then
      match (lookupJ fs "payload").getD (.obj []) with
      | .obj ps => !(isStrEq (lookupJ ps "status") "ok")
      | _ => false
    else true
  | _ => false

/-- A concrete join reply whose status is the string error. -/
def badReply : Json :=
  .obj [("event", .str "phx_reply"), ("payload", .obj [("status", .str "error")])]

/-- A concrete inbound kill_count_update frame with payload fields `ps`. -/
def kcuMessage (ps : List (String × Json)) : Json :=
  .obj [("event", .str "kill_count_update"), ("payload", .obj ps)]

/-- A concrete session that has joined: open websocket, running, empty
subscription set. -/
def runningState : ClientState :=
  { server_url := "ws://localhost:4004"
    websocket := some true
    subscriptions := ∅
    subscription_id := none
    running := true }

/-- Every branch of `_handle_message` returns the state it was given: the
source method only reads the frame and logs. -/
theorem handle_message_fst (st : ClientState) (message : Json) :
    (_handle_message st message).1 = st := by
  cases message
  any_goals rfl
  simp only [_handle_message]
  repeat' split
  all_goals rfl

/-- Whenever the transport opened, `connect` sends exactly the join frame,
whatever the first recv produced. -/
theorem connect_sent_join (st : ClientState) (fr : FirstRecv) :
    (connect st true fr).sent = [joinMessage] := by
  rcases fr with _ | fo
  · rfl
  · rcases fo with _ | j
    · rfl
    · cases j <;> simp only [connect, Bool.not_true] <;> (repeat' split) <;> simp_all

/-- C4: any of subscribe_to_systems, unsubscribe_from_systems, or get_status
called before connect has succeeded (no websocket, or not running) raises the
not-connected error, sends no frame, and leaves the whole client state —
in particular the subscription set — unchanged. -/
theorem C4_not_connected_no_effect (st : ClientState) (ids : List Int)
    (h : st.websocket = none ∨ st.running = false) :
    subscribe_to_systems st ids = ⟨st, [], .error .notConnected⟩ ∧
    unsubscribe_from_systems st ids = ⟨st, [], .error .notConnected⟩ ∧
    get_status st = ⟨st, [], .error .notConnected⟩ := by
  have hguard : (st.websocket.isNone || !st.running) = true := by
    rcases h with h | h <;> simp [h]
  refine ⟨?_, ?_, ?_⟩ <;>
    simp [subscribe_to_systems, unsubscribe_from_systems, get_status, hguard]

/-- Witness for C4 at the freshly constructed (never-connected) client. -/
theorem C4_not_connected_no_effect_witness :
    subscribe_to_systems (mkClient "ws://localhost:4004") [30000142]
        = ⟨mkClient "ws://localhost:4004", [], .error .notConnected⟩ ∧
    unsubscribe_from_systems (mkClient "ws://localhost:4004") [30000142]
        = ⟨mkClient "ws://localhost:4004", [], .error .notConnected⟩ ∧
    get_status (mkClient "ws://localhost:4004")
        = ⟨mkClient "ws://localhost:4004", [], .error .notConnected⟩ :=
  C4_not_connected_no_effect (mkClient "ws://localhost:4004") [30000142] (Or.inl rfl)

/-- C7: disconnect (a total function here because the source swallows every
error in its cleanup phase) always clears the running flag, and a second call
leaves the state exactly as the first left it while sending no second leave
frame. -/
theorem C7_disconnect_idempotent (st : ClientState) :
    (disconnect st).1.running = false ∧
    disconnect (disconnect st).1 = ((disconnect st).1, []) := by
  rcases hw : st.websocket with _ | b
  · simp [disconnect, hw]
  · cases b <;> simp [disconnect, hw]

/-- C8: while running with an open transport, subscribe_to_systems sends the
one subscribe frame carrying exactly the given keys, unions those keys into
the subscription set immediately (before any acknowledgment can exist), and
returns the resulting optimistic set. -/
theorem C8_subscribe_optimistic (st : ClientState) (ids : List Int)
    (hws : st.websocket = some true) (hrun : st.running = true) :
    subscribe_to_systems st ids =
      ⟨{ st with subscriptions := st.subscriptions ∪ ids.toFinset },
        [subscribeMessage ids], .ok ⟨st.subscriptions ∪ ids.toFinset⟩⟩ := by
  simp [subscribe_to_systems, hws, hrun]

/-- Witness for C8 at the concrete running session. -/
theorem C8_subscribe_optimistic_witness :
    subscribe_to_systems runningState [30000142, 30002659] =
      ⟨{ runningState with
          subscriptions := runningState.subscriptions ∪ [30000142, 30002659].toFinset },
        [subscribeMessage [30000142, 30002659]],
        .ok ⟨runningState.subscriptions ∪ [30000142, 30002659].toFinset⟩⟩ :=
  C8_subscribe_optimistic runningState [30000142, 30002659] rfl rfl

/-- C9: on a running session, subscribing the same key list twice yields the
same subscription set as subscribing it once, a list with duplicated keys has
no extra effect, and unsubscribing keys disjoint from the set leaves the set
unchanged and still returns successfully. -/
theorem C9_subscribe_idempotent (st : ClientState) (ids : List Int)
    (hws : st.websocket = some true) (hrun : st.running = true) :
    (subscribe_to_systems (subscribe_to_systems st ids).state ids).state.subscriptions
      = (subscribe_to_systems st ids).state.subscriptions ∧
    (subscribe_to_systems st (ids ++ ids)).state.subscriptions
      = (subscribe_to_systems st ids).state.subscriptions ∧
    (Disjoint ids.toFinset st.subscriptions →
      (unsubscribe_from_systems st ids).state.subscriptions = st.subscriptions ∧
      (unsubscribe_from_systems st ids).result = .ok ⟨st.subscriptions⟩) := by
  refine ⟨?_, ?_, fun hd => ⟨?_, ?_⟩⟩
  · simp [subscribe_to_systems, hws, hrun, Finset.union_assoc]
  · simp [subscribe_to_systems, hws, hrun, Finset.union_assoc]
  · simp [unsubscribe_from_systems, hws, hrun,
      Finset.sdiff_eq_self_of_disjoint hd.symm]
  · simp [unsubscribe_from_systems, hws, hrun,
      Finset.sdiff_eq_self_of_disjoint hd.symm]

/-- Witness for C9 at the concrete running session. -/
theorem C9_subscribe_idempotent_witness :
    (subscribe_to_systems (subscribe_to_systems runningState [30000142, 30000142]).state
        [30000142, 30000142]).state.subscriptions
      = (subscribe_to_systems runningState [30000142, 30000142]).state.subscriptions ∧
    (subscribe_to_systems runningState
        ([30000142, 30000142] ++ [30000142, 30000142])).state.subscriptions
      = (subscribe_to_systems runningState [30000142, 30000142]).state.subscriptions ∧
    (Disjoint [30000142, 30000142].toFinset runningState.subscriptions →
      (unsubscribe_from_systems runningState [30000142, 30000142]).state.subscriptions
        = runningState.subscriptions ∧
      (unsubscribe_from_systems runningState [30000142, 30000142]).result
        = .ok ⟨runningState.subscriptions⟩) :=
  C9_subscribe_idempotent runningState [30000142, 30000142] rfl rfl

/-- C10: dispatching any single inbound frame through the handler leaves the
session state — subscription set, stored subscription identifier, running
flag, all of it — exactly as it was. -/
theorem C10_handler_preserves_state (st : ClientState) (message : Json) :
    (_handle_message st message).1 = st :=
  handle_message_fst st message

/-- C3 counterexample: two successive subscribe_to_systems calls on a running
session both send a frame whose ref is 2 — the correlation id is neither
unique nor strictly increasing. -/
theorem C3_counterexample_refs_repeat :
    (subscribe_to_systems runningState [30000142]).sent.map Frame.ref = [2] ∧
    (subscribe_to_systems (subscribe_to_systems runningState [30000142]).state
        [30002659]).sent.map Frame.ref = [2] := by
  exact ⟨rfl, rfl⟩

/-- C3 amended: each outbound command frame carries a ref fixed by its command
kind — join 1, subscribe 2, unsubscribe 3, status 4, leave 5 — so successive
commands of the same kind repeat the same ref. -/
theorem C3_amended_fixed_refs (st : ClientState) (ids : List Int) (fr : FirstRecv)
    (hws : st.websocket = some true) (hrun : st.running = true) :
    (subscribe_to_systems st ids).sent.map Frame.ref = [2] ∧
    (unsubscribe_from_systems st ids).sent.map Frame.ref = [3] ∧
    (get_status st).sent.map Frame.ref = [4] ∧
    (connect st true fr).sent.map Frame.ref = [1] ∧
    (disconnect st).2.map Frame.ref = [5] := by
  refine ⟨?_, ?_, ?_, ?_, ?_⟩
  · simp [subscribe_to_systems, hws, hrun, subscribeMessage]
  · simp [unsubscribe_from_systems, hws, hrun, unsubscribeMessage]
  · simp [get_status, hws, hrun, statusMessage]
  · rw [connect_sent_join]; rfl
  · simp [disconnect, hws, leaveMessage]

/-- Witness for the amended C3 at the concrete running session. -/
theorem C3_amended_fixed_refs_witness :
    (subscribe_to_systems runningState [30000142]).sent.map Frame.ref = [2] ∧
    (unsubscribe_from_systems runningState [30000142]).sent.map Frame.ref = [3] ∧
    (get_status runningState).sent.map Frame.ref = [4] ∧
    (connect runningState true none).sent.map Frame.ref = [1] ∧
    (disconnect runningState).2.map Frame.ref = [5] :=
  C3_amended_fixed_refs runningState [30000142] none rfl rfl

/-- C2 counterexample: against a peer whose join reply has status error, the
connect call does raise the join-failure error carrying the raw reply, but
the session is left with running true — the flag was set when the transport
opened, before the reply was examined. -/
theorem C2_counterexample_running_after_failure :
    (connect (mkClient "ws://localhost:4004") true (some (some badReply))).result
        = .error (.joinFailed badReply) ∧
    (connect (mkClient "ws://localhost:4004") true (some (some badReply))).state.running
        = true := by
  exact ⟨rfl, rfl⟩

/-- C2 amended: on a first reply whose join check evaluates to not-ok, connect
raises an error carrying the raw reply after sending exactly one join frame,
and on a transport close before any reply it raises the recv error — but in
both cases the running flag is true after the failed call, having been set at
transport open; the state is left untouched only when opening the transport
itself fails. -/
theorem C2_amended_connect_failure (st : ClientState) (rd : Json) (fr : FirstRecv)
    (h : replyNotOkClean rd = true) :
    (connect st true (some (some rd))).result = .error (.joinFailed rd) ∧
    (connect st true (some (some rd))).state.running = true ∧
    (connect st true (some (some rd))).sent = [joinMessage] ∧
    (connect st true none).result = .error .recvError ∧
    (connect st true none).state.running = true ∧
    connect st false fr = ⟨st, [], .error .transportConnectError⟩ := by
  have key : connect st true (some (some rd)) =
      ⟨{ st with websocket := some true, running := true }, [joinMessage],
        .error (.joinFailed rd)⟩ := by
    cases rd with
    | null => exact absurd h (by simp [replyNotOkClean])
    | bool b => exact absurd h (by simp [replyNotOkClean])
    | num n => exact absurd h (by simp [replyNotOkClean])
    | str s => exact absurd h (by simp [replyNotOkClean])
    | arr xs => exact absurd h (by simp [replyNotOkClean])
    | obj fs =>
      by_cases hev : isStrEq (lookupJ fs "event") "phx_reply" = true
      · rcases hpay : (lookupJ fs "payload").getD (Json.obj []) with _ | b | n | s | xs | ps <;>
          simp [replyNotOkClean, hev, hpay] at h
        simp [connect, hev, hpay, h]
      · simp only [replyNotOkClean, hev] at h
        simp [connect, hev]
  exact ⟨by rw [key], by rw [key], by rw [key], rfl, rfl, by simp [connect]⟩

/-- Witness for the amended C2 at the concrete status-error reply. -/
theorem C2_amended_connect_failure_witness :
    (connect (mkClient "ws://localhost:4004") true (some (some badReply))).result
        = .error (.joinFailed badReply) ∧
    (connect (mkClient "ws://localhost:4004") true (some (some badReply))).state.running
        = true ∧
    (connect (mkClient "ws://localhost:4004") true (some (some badReply))).sent
        = [joinMessage] ∧
    (connect (mkClient "ws://localhost:4004") true none).result = .error .recvError ∧
    (connect (mkClient "ws://localhost:4004") true none).state.running = true ∧
    connect (mkClient "ws://localhost:4004") false none
        = ⟨mkClient "ws://localhost:4004", [], .error .transportConnectError⟩ :=
  C2_amended_connect_failure (mkClient "ws://localhost:4004") badReply none rfl

/-- C5: on a first reply with event phx_reply, status ok and a dict response
payload, connect stores the subscription_id field from that response, marks
the session running, has sent exactly the one join frame, and returns the
response payload itself. -/
theorem C5_connect_ok (st : ClientState) (fs ps rs : List (String × Json))
    (hev : lookupJ fs "event" = some (.str "phx_reply"))
    (hpay : lookupJ fs "payload" = some (.obj ps))
    (hst : lookupJ ps "status" = some (.str "ok"))
    (hresp : lookupJ ps "response" = some (.obj rs)) :
    connect st true (some (some (.obj fs))) =
      ⟨{ st with
          websocket := some true
          running := true
          subscription_id := lookupJ rs "subscription_id" },
        [joinMessage], .ok (.obj rs)⟩ := by
  simp [connect, hev, hpay, hst, hresp, isStrEq]

/-- Witness for C5 at the concrete ok reply carrying subscription_id sub-1. -/
theorem C5_connect_ok_witness :
    connect (mkClient "ws://localhost:4004") true
        (some (some (.obj [("event", .str "phx_reply"),
          ("payload", .obj [("status", .str "ok"),
            ("response", .obj [("subscription_id", .str "sub-1")])])]))) =
      ⟨{ mkClient "ws://localhost:4004" with
          websocket := some true
          running := true
          subscription_id := lookupJ [("subscription_id", Json.str "sub-1")] "subscription_id" },
        [joinMessage], .ok (.obj [("subscription_id", .str "sub-1")])⟩ :=
  C5_connect_ok (mkClient "ws://localhost:4004")
    [("event", .str "phx_reply"),
      ("payload", .obj [("status", .str "ok"),
        ("response", .obj [("subscription_id", .str "sub-1")])])]
    [("status", .str "ok"), ("response", .obj [("subscription_id", .str "sub-1")])]
    [("subscription_id", .str "sub-1")] rfl rfl rfl rfl

/-- On a running session with open transport, a command sequence leaves the
subscription set equal to the fold of union/difference steps over the
starting set. -/
theorem runCmds_tracking (cmds : List SubCmd) (st : ClientState)
    (hws : st.websocket = some true) (hrun : st.running = true) :
    (runCmds st cmds).subscriptions = cmds.foldl applySpec st.subscriptions := by
  induction cmds generalizing st with
  | nil => rfl
  | cons c cs ih =>
    cases c with
    | sub ids =>
      have h1 : (subscribe_to_systems st ids).state =
          { st with subscriptions := st.subscriptions ∪ ids.toFinset } := by
        simp [subscribe_to_systems, hws, hrun]
      rw [runCmds, h1,
        ih { st with subscriptions := st.subscriptions ∪ ids.toFinset } hws hrun]
      rfl
    | unsub ids =>
      have h1 : (unsubscribe_from_systems st ids).state =
          { st with subscriptions := st.subscriptions \ ids.toFinset } := by
        simp [unsubscribe_from_systems, hws, hrun]
      rw [runCmds, h1,
        ih { st with subscriptions := st.subscriptions \ ids.toFinset } hws hrun]
      rfl

/-- C1: for every sequence of subscribe/unsubscribe calls issued on a running
session whose subscription set is the empty set established at connect, the
locally tracked set equals the in-order fold of union (subscribe) and
difference (unsubscribe) of the key lists passed, starting from the empty
set. -/
theorem C1_subscription_fold (st : ClientState) (cmds : List SubCmd)
    (hws : st.websocket = some true) (hrun : st.running = true)
    (hempty : st.subscriptions = ∅) :
    (runCmds st cmds).subscriptions = cmds.foldl applySpec ∅ := by
  rw [runCmds_tracking cmds st hws hrun, hempty]

/-- Witness for C1 at a concrete command sequence on the running session. -/
theorem C1_subscription_fold_witness :
    (runCmds runningState
        [SubCmd.sub [30000142, 30002659, 30002187], SubCmd.unsub [30000142]]).subscriptions
      = [SubCmd.sub [30000142, 30002659, 30002187], SubCmd.unsub [30000142]].foldl
          applySpec ∅ :=
  C1_subscription_fold runningState
    [SubCmd.sub [30000142, 30002659, 30002187], SubCmd.unsub [30000142]] rfl rfl rfl

/-- A frame that `json.loads` rejects is logged and skipped: the loop state
and output are those of the remaining items. -/
theorem listen_skip_decode_error (st : ClientState) (rest : List RecvItem)
    (hrun : st.running = true) (hws : st.websocket.isSome = true) :
    _listen_for_messages st (RecvItem.frame none :: rest)
      = _listen_for_messages st rest := by
  simp [_listen_for_messages, hrun, hws]

/-- A parsed frame contributes the handler's events and leaves the loop on
the same state (the handler never mutates it). -/
theorem listen_frame_cons (st : ClientState) (j : Json) (rest : List RecvItem)
    (hrun : st.running = true) (hws : st.websocket.isSome = true) :
    _listen_for_messages st (RecvItem.frame (some j) :: rest)
      = ((_listen_for_messages st rest).1,
          (_handle_message st j).2.getD [] ++ (_listen_for_messages st rest).2) := by
  simp [_listen_for_messages, hrun, hws, handle_message_fst]

/-- Prepending frames (well-formed or not) never loses a later delivery. -/
theorem listen_mem_prefix (st : ClientState) (pre l : List RecvItem) (x : Delivered)
    (hrun : st.running = true) (hws : st.websocket.isSome = true)
    (hpre : ∀ it ∈ pre, ∃ o, it = RecvItem.frame o)
    (hx : x ∈ (_listen_for_messages st l).2) :
    x ∈ (_listen_for_messages st (pre ++ l)).2 := by
  induction pre with
  | nil => simpa using hx
  | cons it pre ih =>
    obtain ⟨o, rfl⟩ := hpre it (List.mem_cons_self it pre)
    have ih' := ih fun a ha => hpre a (List.mem_cons_of_mem _ ha)
    cases o with
    | none =>
      rw [List.cons_append, listen_skip_decode_error st _ hrun hws]
      exact ih'
    | some j =>
      rw [List.cons_append, listen_frame_cons st j _ hrun hws]
      exact List.mem_append_right _ ih'

/-- The handler on a concrete kill_count_update frame emits exactly the
KillCountUpdate event with the payload's system_id and count fields. -/
theorem handle_kcu (st : ClientState) (ps : List (String × Json)) :
    _handle_message st (kcuMessage ps)
      = (st, some [.killCountUpdate (lookupJ ps "system_id") (lookupJ ps "count")]) := by
  simp [_handle_message, kcuMessage, lookupJ, isStrEq]

/-- C6: a frame that fails structured-data parsing neither terminates the
receive loop nor changes session state (processing it is a no-op), and in any
frame sequence where such a malformed frame precedes a well-formed
kill_count_update frame, the KillCountUpdate event is still delivered to the
consumer. -/
theorem C6_malformed_frame_nonfatal (st : ClientState) (pre post : List RecvItem)
    (ps : List (String × Json))
    (hrun : st.running = true) (hws : st.websocket.isSome = true)
    (hpre : ∀ it ∈ pre, ∃ o, it = RecvItem.frame o) :
    _listen_for_messages st (RecvItem.frame none :: post)
        = _listen_for_messages st post ∧
    Delivered.killCountUpdate (lookupJ ps "system_id") (lookupJ ps "count") ∈
      (_listen_for_messages st
        (pre ++ RecvItem.frame none :: RecvItem.frame (some (kcuMessage ps)) :: post)).2 := by
  refine ⟨listen_skip_decode_error st post hrun hws, ?_⟩
  apply listen_mem_prefix st pre _ _ hrun hws hpre
  rw [listen_skip_decode_error st _ hrun hws, listen_frame_cons st _ _ hrun hws,
    handle_kcu]
  simp

/-- Witness for C6: on the running session, a malformed frame followed by the
concrete kill_count_update frame for system 30000142 with count 3 still
delivers that event. -/
theorem C6_malformed_frame_nonfatal_witness :
    _listen_for_messages runningState (RecvItem.frame none :: [])
        = _listen_for_messages runningState [] ∧
    Delivered.killCountUpdate
        (lookupJ [("system_id", Json.num 30000142), ("count", Json.num 3)] "system_id")
        (lookupJ [("system_id", Json.num 30000142), ("count", Json.num 3)] "count") ∈
      (_listen_for_messages runningState
        ([RecvItem.frame none] ++ RecvItem.frame none :: RecvItem.frame
          (some (kcuMessage [("system_id", Json.num 30000142), ("count", Json.num 3)]))
          :: [])).2 :=
  C6_malformed_frame_nonfatal runningState [RecvItem.frame none] []
    [("system_id", Json.num 30000142), ("count", Json.num 3)] rfl rfl
    (by intro it h; simp at h; exact ⟨none, h⟩)

end WandererKills
